import Mathlib

/-!
Verification of the interview session controller of the MockAI repository.

The controller is the `InterviewScreen` component: it owns the current
question index, the capture transcripts, the typed answer, the
analysis-in-flight flag, the current feedback and the collected results,
and it reports the global application state to the host `App` component.
This file embeds its state and event handlers shallowly (React state
updates become explicit state passing; the asynchronous evaluator call
becomes a response function consulted atomically inside the submit
handler, with the in-flight window represented by the `isAnalyzing`
flag) and proves theorems about the specification's claims.
-/

namespace MockAI

/-- `AppState` enum from `types.ts`. -/
inductive AppState where
  | SETUP
  | GENERATING
  | INTERVIEW
  | ANALYZING
  | FEEDBACK
  | COMPLETE
deriving DecidableEq, Repr

/-- Rating levels of `AnswerFeedback.rating` from `types.ts`. -/
inductive Rating where
  | Beginner
  | Intermediate
  | Advanced
deriving DecidableEq, Repr

/-- Playback status of the single active utterance (the component's
`speechState`). -/
inductive SpeechState where
  | idle
  | playing
  | paused
  | ended
deriving DecidableEq, Repr

/-- `InterviewQuestion` from `types.ts`. -/
structure InterviewQuestion where
  question : String
  persona : String
  keywords : List String
deriving DecidableEq, Repr

/-- `AnswerFeedback` from `types.ts`.  `score` is a number produced by the
evaluator; no claim computes with it, so it is modelled as `Int`. -/
structure AnswerFeedback where
  strengths : List String
  weaknesses : List String
  idealAnswer : String
  spokenFeedback : String
  score : Int
  rating : Rating
  matchedKeywords : List String
  missedKeywords : List String
deriving DecidableEq, Repr

/-- `InterviewResult` from `types.ts`. -/
structure InterviewResult where
  question : InterviewQuestion
  answer : String
  feedback : AnswerFeedback
deriving DecidableEq, Repr

/-- Model of JavaScript `String.prototype.trim`: drop whitespace from both
ends of the character sequence. -/
def trimStr (s : String) : String :=
  ⟨((s.data.dropWhile Char.isWhitespace).reverse.dropWhile Char.isWhitespace).reverse⟩

/-- JavaScript `a || b` on strings: the empty string is the falsy one. -/
def jsOr (a b : String) : String :=
  if a = "" then b else a

/-- The state of one mounted interview session: the `useState` hooks of
`InterviewScreen`, the host-visible state `App` lets it set (`appState`,
`hostResults`), the current speech-synthesis utterance, and the `alert`
messages shown to the user so far. -/
structure ScreenState where
  currentQuestionIndex : Nat
  isListening : Bool
  transcript : String
  finalTranscript : String
  textAnswer : String
  feedback : Option AnswerFeedback
  isAnalyzing : Bool
  localResults : List InterviewResult
  speechState : SpeechState
  appState : AppState
  hostResults : List InterviewResult
  utterance : Option String
  alerts : List String
deriving DecidableEq, Repr

/-- The evaluator's response to one `analyzeAnswer(question, answer,
keywords)` call: structured feedback, or a failure message. -/
def AnswerEval : Type :=
  String → String → List String → Except String AnswerFeedback

/-- The arguments of one `analyzeAnswer` call, recorded so that theorems can
speak about which evaluator calls an action issued. -/
def EvalCall : Type :=
  String × String × List String

/-- `speak(text)`: cancel the active utterance and start a new one; the
`onstart` callback setting the playback state to `playing` is folded in. -/
def speak (text : String) (s : ScreenState) : ScreenState :=
  { s with utterance := some text, speechState := SpeechState.playing }

/-- The answer-text resolution of `handleSubmitAnswer` (part_000 lines
189-190): the spoken answer is the override if one was passed, else
`finalTranscript || transcript`, trimmed; the submitted answer is the spoken
answer if non-empty, else the typed text, trimmed. -/
def resolveAnswer (answerOverride : Option String)
    (finalTranscript transcript textAnswer : String) : String :=
  let spokenAnswer := trimStr (match answerOverride with
    | some o => o
    | none => jsOr finalTranscript transcript)
  trimStr (jsOr spokenAnswer textAnswer)

/-- The `alert` message of the `catch` branch of `handleSubmitAnswer`. -/
def analysisErrorMessage : String :=
  "There was an error analyzing your answer. Please try again."

/-- `handleSubmitAnswer` (part_000 lines 182-222) as a function of the
question list, the evaluator's response function, the optional
`answerOverride` argument, and the component state.  Returns the new state
and the list of `analyzeAnswer` calls issued.  `recognition.stop()` is
modelled by its `onend` effect (clearing `isListening`), applied
synchronously.  When `currentQuestionIndex` is out of range the source reads
`currentQuestion.question` on `undefined` inside the `try`, so control lands
in the `catch`/`finally` blocks without any evaluator call. -/
def handleSubmitAnswer (questions : List InterviewQuestion)
    (analyzeAnswer : AnswerEval) (answerOverride : Option String)
    (s : ScreenState) : ScreenState × List EvalCall :=
  let s1 := if s.isListening then { s with isListening := false } else s
  let s2 := { s1 with isAnalyzing := true, appState := AppState.ANALYZING }
  let answerToSubmit :=
    resolveAnswer answerOverride s2.finalTranscript s2.transcript s2.textAnswer
  if answerToSubmit = "" then
    ({ s2 with isAnalyzing := false, appState := AppState.INTERVIEW }, [])
  else
    match questions[s2.currentQuestionIndex]? with
    | none =>
        ({ s2 with appState := AppState.INTERVIEW, isAnalyzing := false,
                   alerts := s2.alerts ++ [analysisErrorMessage] }, [])
    | some q =>
        match analyzeAnswer q.question answerToSubmit q.keywords with
        | Except.ok fb =>
            let s3 := if fb.spokenFeedback ≠ "" then speak fb.spokenFeedback s2 else s2
            let r : InterviewResult := ⟨q, answerToSubmit, fb⟩
            ({ s3 with feedback := some fb,
                       hostResults := s3.hostResults ++ [r],
                       localResults := s3.localResults ++ [r],
                       appState := AppState.FEEDBACK, isAnalyzing := false },
             [(q.question, answerToSubmit, q.keywords)])
        | Except.error _ =>
            ({ s2 with appState := AppState.INTERVIEW, isAnalyzing := false,
                       alerts := s2.alerts ++ [analysisErrorMessage] },
             [(q.question, answerToSubmit, q.keywords)])

/-- `handleToggleListening` (lines 262-272): stop the device if listening
(`onend` clears the flag); otherwise clear both transcript buffers and the
typed text, start the device, and set the flag. -/
def handleToggleListening (s : ScreenState) : ScreenState :=
  if s.isListening then
    { s with isListening := false }
  else
    { s with transcript := "", finalTranscript := "", textAnswer := "",
             isListening := true }

/-- `handleNextQuestion` (lines 287-300): cancel playback, reset the
playback status, clear the feedback, both transcript buffers and the typed
text; then either advance the index and re-enter the interview state, or
report completion.  Note that on the final question the index is left
unchanged. -/
def handleNextQuestion (questions : List InterviewQuestion)
    (s : ScreenState) : ScreenState :=
  let s1 := { s with utterance := none, speechState := SpeechState.idle,
                     feedback := none, transcript := "", finalTranscript := "",
                     textAnswer := "" }
  if s1.currentQuestionIndex < questions.length - 1 then
    { s1 with currentQuestionIndex := s1.currentQuestionIndex + 1,
              appState := AppState.INTERVIEW }
  else
    { s1 with appState := AppState.COMPLETE }

/-- The answer textarea's `onChange` handler (lines 349-357): record the
typed text, stop capture if it was somehow active, and clear both transcript
buffers. -/
def handleTypeAnswer (text : String) (s : ScreenState) : ScreenState :=
  let s1 := { s with textAnswer := text }
  let s2 := if s1.isListening then { s1 with isListening := false } else s1
  { s2 with transcript := "", finalTranscript := "" }

/-- `recognition.onresult` (lines 231-246) for one event whose result chunks
concatenate to `final` (finalized) and `interim` (interim): the displayed
transcript becomes the previous finalized buffer followed by both, and a
non-empty finalized chunk is space-appended to the finalized buffer, which
is trimmed. -/
def handleRecognitionResult (final interim : String)
    (s : ScreenState) : ScreenState :=
  let s1 := { s with transcript := s.finalTranscript ++ final ++ interim }
  if final ≠ "" then
    { s1 with finalTranscript := trimStr (s.finalTranscript ++ " " ++ final) }
  else s1

/-- `handleToggleSpokenFeedback` (lines 274-285): pause while playing,
resume while paused, otherwise replay the spoken feedback when one exists. -/
def handleToggleSpokenFeedback (s : ScreenState) : ScreenState :=
  match s.speechState with
  | SpeechState.playing => { s with speechState := SpeechState.paused }
  | SpeechState.paused => { s with speechState := SpeechState.playing }
  | _ =>
      match s.feedback with
      | some fb =>
          if fb.spokenFeedback ≠ "" then speak fb.spokenFeedback s else s
      | none => s

/-- The presentation effect (lines 176-180): while a question is current and
no feedback is shown, speak the question together with its asker identity. -/
def presentQuestion (questions : List InterviewQuestion)
    (s : ScreenState) : ScreenState :=
  match questions[s.currentQuestionIndex]? with
  | some q =>
      match s.feedback with
      | none =>
          speak ("Next question, from " ++ q.persona ++ ". " ++ q.question) s
      | some _ => s
  | none => s

/-- `displayedAnswer` (line 308): the transcript while listening or while a
transcript exists, the typed text otherwise. -/
def displayedAnswer (s : ScreenState) : String :=
  if s.isListening = true ∨ s.transcript ≠ "" then s.transcript else s.textAnswer

/-- One user action or device callback delivered to the mounted session.  A
`submit` carries the evaluator's response function for the call it may issue
(the network outcome of that submission), so traces range over arbitrary
evaluator outcomes. -/
inductive Event where
  | submit (analyzeAnswer : AnswerEval)
  | nextQuestion
  | toggleListening
  | typeAnswer (text : String)
  | recognitionResult (final interim : String)
  | recognitionEnd
  | togglePlayback

/-- One step of the session: deliver an event, applying exactly the guards
the rendered UI enforces (lines 302-396).  `App` mounts the screen only for
the `INTERVIEW`/`ANALYZING`/`FEEDBACK` states and the screen renders `null`
once the index is out of range; while `isAnalyzing` the footer shows only
the spinner and the textarea is disabled, so no user action is deliverable;
the submit button exists only while no feedback is shown and is disabled
while the displayed answer trims to nothing; the next-question button exists
only while feedback is shown; the textarea accepts input only while neither
analyzing nor listening; device callbacks stay attached throughout.
Advancing to a further question re-runs the presentation effect. -/
def dispatch (questions : List InterviewQuestion) (e : Event)
    (s : ScreenState) : ScreenState × List EvalCall :=
  if (s.appState = AppState.INTERVIEW ∨ s.appState = AppState.ANALYZING ∨
      s.appState = AppState.FEEDBACK) ∧
      s.currentQuestionIndex < questions.length then
    match e with
    | Event.submit analyzeAnswer =>
        if s.isAnalyzing = false ∧ s.feedback = none ∧
            trimStr (displayedAnswer s) ≠ "" then
          handleSubmitAnswer questions analyzeAnswer none s
        else (s, [])
    | Event.nextQuestion =>
        if s.isAnalyzing = false ∧ s.feedback ≠ none then
          let s1 := handleNextQuestion questions s
          (if s1.appState = AppState.COMPLETE then s1
           else presentQuestion questions s1, [])
        else (s, [])
    | Event.toggleListening =>
        if s.isAnalyzing = false ∧ s.feedback = none then
          (handleToggleListening s, [])
        else (s, [])
    | Event.typeAnswer text =>
        if s.isAnalyzing = false ∧ s.isListening = false ∧ s.feedback = none then
          (handleTypeAnswer text s, [])
        else (s, [])
    | Event.recognitionResult final interim =>
        (handleRecognitionResult final interim s, [])
    | Event.recognitionEnd =>
        ({ s with isListening := false }, [])
    | Event.togglePlayback =>
        if s.feedback ≠ none then (handleToggleSpokenFeedback s, [])
        else (s, [])
  else (s, [])

/-- The fresh `useState` hook values of `InterviewScreen` at mount, with the
host state `INTERVIEW` and the host results just reset to `[]`. -/
def freshState : ScreenState :=
  { currentQuestionIndex := 0, isListening := false, transcript := "",
    finalTranscript := "", textAnswer := "", feedback := none,
    isAnalyzing := false, localResults := [],
    speechState := SpeechState.idle, appState := AppState.INTERVIEW,
    hostResults := [], utterance := none, alerts := [] }

/-- The component state right after `App` mounts `InterviewScreen`: the
fresh hook values with the mount-time presentation effect applied. -/
def initState (questions : List InterviewQuestion) : ScreenState :=
  presentQuestion questions freshState

/-- The session states reachable by delivering events to a freshly mounted
session over the given question list. -/
inductive Reachable (questions : List InterviewQuestion) : ScreenState → Prop where
  | init : Reachable questions (initState questions)
  | step {s : ScreenState} (e : Event) (hs : Reachable questions s) :
      Reachable questions (dispatch questions e s).1

/-- A sample question for concrete evaluations. -/
def sampleQuestion : InterviewQuestion :=
  { question := "Why this role?", persona := "HR Manager", keywords := ["growth"] }

/-- A sample feedback value for concrete evaluations. -/
def sampleFeedback : AnswerFeedback :=
  { strengths := ["clear"], weaknesses := ["short"], idealAnswer := "ideal",
    spokenFeedback := "Good effort.", score := 72,
    rating := Rating.Intermediate, matchedKeywords := ["growth"],
    missedKeywords := [] }

/-- An evaluator response function that always succeeds with `sampleFeedback`. -/
def sampleEvalOk : AnswerEval :=
  fun _ _ _ => Except.ok sampleFeedback

/-- An evaluator response function that always fails (a network error). -/
def sampleEvalFail : AnswerEval :=
  fun _ _ _ => Except.error "network error"

/-! ### Trimming lemmas -/

theorem dropWhile_dropWhile (p : Char → Bool) (l : List Char) :
    (l.dropWhile p).dropWhile p = l.dropWhile p := by
  induction l with
  | nil => rfl
  | cons a t ih =>
      by_cases h : p a
      · simp [List.dropWhile_cons, h, ih]
      · simp [List.dropWhile_cons, h]

theorem dropWhile_trimmed_reverse (p : Char → Bool) (l : List Char)
    (h : l.dropWhile p = l) :
    ((l.reverse.dropWhile p).reverse).dropWhile p = (l.reverse.dropWhile p).reverse := by
  cases l with
  | nil => rfl
  | cons a t =>
      have ha : p a = false := by
        by_contra hpa
        have hpa' : p a = true := by
          cases hp : p a
          · exact absurd hp hpa
          · rfl
        rw [List.dropWhile_cons, if_pos hpa'] at h
        have hle : (t.dropWhile p).length ≤ t.length :=
          (List.dropWhile_suffix p).sublist.length_le
        rw [h] at hle
        simp at hle
      rw [List.reverse_cons, List.dropWhile_append]
      by_cases he : (t.reverse.dropWhile p).isEmpty
      · simp [he, List.dropWhile_cons, ha]
      · simp only [he, if_false, Bool.false_eq_true]
        rw [List.reverse_append]
        simp [List.dropWhile_cons, ha]

/-- JavaScript trimming is idempotent. -/
theorem trimStr_trimStr (s : String) : trimStr (trimStr s) = trimStr s := by
  unfold trimStr
  congr 1
  show ((((((s.data.dropWhile Char.isWhitespace).reverse.dropWhile
      Char.isWhitespace).reverse).dropWhile Char.isWhitespace).reverse).dropWhile
      Char.isWhitespace).reverse =
    ((s.data.dropWhile Char.isWhitespace).reverse.dropWhile Char.isWhitespace).reverse
  rw [dropWhile_trimmed_reverse Char.isWhitespace _
        (dropWhile_dropWhile Char.isWhitespace s.data),
      List.reverse_reverse, dropWhile_dropWhile]

/-! ### Claim C2: answer-text resolution precedence -/

/-- The resolution rule exactly as claim C2 words it: the explicit override
text whenever one is provided, else the first of finalized transcript,
interim transcript, typed text whose trimmed value is non-empty; the
resolved text trimmed of surrounding whitespace. -/
def resolveAnswerClaim (answerOverride : Option String)
    (finalTranscript transcript textAnswer : String) : String :=
  trimStr (match answerOverride with
    | some o => o
    | none =>
        if trimStr finalTranscript ≠ "" then finalTranscript
        else if trimStr transcript ≠ "" then transcript
        else textAnswer)

/-- The resolution rule as the code implements it, stated from the amended
claim's words: a spoken candidate is the override when provided, else the
finalized transcript when that is non-empty, else the interim transcript,
and is trimmed; when the trimmed spoken candidate is non-empty it is the
resolved answer, otherwise the trimmed typed text is. -/
def resolveAnswerAmended (answerOverride : Option String)
    (finalTranscript transcript textAnswer : String) : String :=
  let spoken := trimStr (match answerOverride with
    | some o => o
    | none => if finalTranscript = "" then transcript else finalTranscript)
  if spoken = "" then trimStr textAnswer else spoken

/-- C2 counterexample: with an explicit override of `""` and typed text
`"typed"`, the code resolves the answer to the typed text, while the claimed
precedence resolves it to the provided (empty) override — so the claimed
precedence does not describe `handleSubmitAnswer`'s resolution. -/
theorem resolveAnswer_claim_counterexample :
    resolveAnswer (some "") "" "" "typed" = "typed" ∧
    resolveAnswerClaim (some "") "" "" "typed" = "" ∧
    ("typed" : String) ≠ "" := by
  refine ⟨by decide, by decide, by decide⟩

/-- C2 (amended): the resolution implemented by `handleSubmitAnswer` equals
the amended precedence: the trimmed spoken candidate — override if provided,
else finalized transcript if non-empty, else interim transcript — when that
is non-empty, otherwise the trimmed typed text.  In particular a provided
override suppresses the transcripts but not the typed-text fallback, and a
whitespace-only finalized transcript falls through to the typed text, not to
the interim transcript. -/
theorem resolveAnswer_eq_amended (answerOverride : Option String)
    (finalTranscript transcript textAnswer : String) :
    resolveAnswer answerOverride finalTranscript transcript textAnswer =
      resolveAnswerAmended answerOverride finalTranscript transcript textAnswer := by
  unfold resolveAnswer resolveAnswerAmended jsOr
  cases answerOverride with
  | some ov =>
      by_cases h : trimStr ov = ""
      · simp [h]
      · simp [h, trimStr_trimStr]
  | none =>
      by_cases hft : finalTranscript = ""
      · by_cases h : trimStr transcript = ""
        · simp [hft, h]
        · simp [hft, h, trimStr_trimStr]
      · by_cases h : trimStr finalTranscript = ""
        · simp [hft, h]
        · simp [hft, h, trimStr_trimStr]

/-! ### Submit-handler case equations -/

/-- The resolved answer of a submit with the given override against state
`s`. -/
def resolvedOf (answerOverride : Option String) (s : ScreenState) : String :=
  resolveAnswer answerOverride s.finalTranscript s.transcript s.textAnswer

theorem handleSubmitAnswer_empty (questions : List InterviewQuestion)
    (analyzeAnswer : AnswerEval) (answerOverride : Option String)
    (s : ScreenState) (h : resolvedOf answerOverride s = "") :
    handleSubmitAnswer questions analyzeAnswer answerOverride s =
      ({ s with isListening := false, isAnalyzing := false,
                appState := AppState.INTERVIEW }, []) := by
  unfold resolvedOf at h
  unfold handleSubmitAnswer
  cases hl : s.isListening <;> simp [hl, h]

theorem handleSubmitAnswer_ok (questions : List InterviewQuestion)
    (analyzeAnswer : AnswerEval) (answerOverride : Option String)
    (s : ScreenState) (q : InterviewQuestion) (fb : AnswerFeedback)
    (hne : resolvedOf answerOverride s ≠ "")
    (hq : questions[s.currentQuestionIndex]? = some q)
    (hok : analyzeAnswer q.question (resolvedOf answerOverride s) q.keywords =
      Except.ok fb) :
    handleSubmitAnswer questions analyzeAnswer answerOverride s =
      ({ s with isListening := false, isAnalyzing := false,
                feedback := some fb,
                localResults :=
                  s.localResults ++ [⟨q, resolvedOf answerOverride s, fb⟩],
                hostResults :=
                  s.hostResults ++ [⟨q, resolvedOf answerOverride s, fb⟩],
                appState := AppState.FEEDBACK,
                utterance := if fb.spokenFeedback = "" then s.utterance
                  else some fb.spokenFeedback,
                speechState := if fb.spokenFeedback = "" then s.speechState
                  else SpeechState.playing },
       [(q.question, resolvedOf answerOverride s, q.keywords)]) := by
  unfold resolvedOf at hne hok
  unfold handleSubmitAnswer speak
  cases hl : s.isListening <;>
    (simp only [hl, Bool.false_eq_true, if_true, if_false, ite_true, ite_false];
     simp only [hne, if_neg, ite_false];
     simp [hq, hok, hne];
     by_cases hsf : fb.spokenFeedback = "" <;> simp [hsf, resolvedOf])

theorem handleSubmitAnswer_error (questions : List InterviewQuestion)
    (analyzeAnswer : AnswerEval) (answerOverride : Option String)
    (s : ScreenState) (q : InterviewQuestion) (msg : String)
    (hne : resolvedOf answerOverride s ≠ "")
    (hq : questions[s.currentQuestionIndex]? = some q)
    (herr : analyzeAnswer q.question (resolvedOf answerOverride s) q.keywords =
      Except.error msg) :
    handleSubmitAnswer questions analyzeAnswer answerOverride s =
      ({ s with isListening := false, isAnalyzing := false,
                appState := AppState.INTERVIEW,
                alerts := s.alerts ++ [analysisErrorMessage] },
       [(q.question, resolvedOf answerOverride s, q.keywords)]) := by
  unfold resolvedOf at hne herr
  unfold handleSubmitAnswer
  cases hl : s.isListening <;> simp [hl, hne, hq, herr, resolvedOf]

theorem handleSubmitAnswer_outOfRange (questions : List InterviewQuestion)
    (analyzeAnswer : AnswerEval) (answerOverride : Option String)
    (s : ScreenState)
    (hne : resolvedOf answerOverride s ≠ "")
    (hq : questions[s.currentQuestionIndex]? = none) :
    handleSubmitAnswer questions analyzeAnswer answerOverride s =
      ({ s with isListening := false, isAnalyzing := false,
                appState := AppState.INTERVIEW,
                alerts := s.alerts ++ [analysisErrorMessage] }, []) := by
  unfold resolvedOf at hne
  unfold handleSubmitAnswer
  cases hl : s.isListening <;> simp [hl, hne, hq, resolvedOf]

/-! ### Concrete states for witnesses and counterexamples -/

/-- A freshly presented session state (index 0, everything clear). -/
def baseState : ScreenState :=
  freshState

/-- A state with an analysis in flight. -/
def analyzingState : ScreenState :=
  { baseState with isAnalyzing := true, appState := AppState.ANALYZING,
                   textAnswer := "draft" }

/-- A state captured mid-listening with no usable text anywhere. -/
def listeningEmptyState : ScreenState :=
  { baseState with isListening := true }

/-- A state with a typed answer ready to submit. -/
def typedState : ScreenState :=
  { baseState with textAnswer := "I optimize for readability first" }

/-- A state with a typed answer, used on the evaluator-failure path. -/
def failInputState : ScreenState :=
  { baseState with textAnswer := "hello world" }

/-- A state holding a finalized capture transcript ready to submit. -/
def capturedState : ScreenState :=
  { baseState with finalTranscript := "captured answer",
                   transcript := "captured answer" }

/-- A state with leftover typed text and transcripts, capture inactive. -/
def typedDraftState : ScreenState :=
  { baseState with textAnswer := "typed draft", transcript := "old",
                   finalTranscript := "old" }

/-! ### Claim C1: at most one evaluator call in flight -/

/-- C1: delivering a submit while `isAnalyzing` (an analysis is in flight)
is rejected without issuing a second `analyzeAnswer` call: the state is
unchanged — so nothing is queued — and the call list is empty.  While
`isAnalyzing` the footer renders only the spinner, so the submit control is
not available and the single-in-flight invariant holds. -/
theorem submit_while_analyzing_rejected (questions : List InterviewQuestion)
    (analyzeAnswer : AnswerEval) (s : ScreenState)
    (h : s.isAnalyzing = true) :
    dispatch questions (Event.submit analyzeAnswer) s = (s, []) := by
  unfold dispatch
  split
  · dsimp only
    rw [if_neg]
    rintro ⟨h1, -, -⟩
    rw [h] at h1
    cases h1
  · rfl

/-- C1 witness: a concrete analyzing state on which the submit is a no-op. -/
theorem submit_while_analyzing_rejected_witness :
    analyzingState.isAnalyzing = true ∧
    dispatch [sampleQuestion] (Event.submit sampleEvalOk) analyzingState =
      (analyzingState, []) :=
  ⟨rfl, submit_while_analyzing_rejected [sampleQuestion] sampleEvalOk
    analyzingState rfl⟩

/-! ### Claim C3: empty resolved answer -/

/-- C3 counterexample: a submit whose resolved text is empty, issued while
capture is active, makes no evaluator call and returns to presenting — but
it does have a side effect on the session state: the capture is stopped
(`isListening` goes from `true` to `false`). -/
theorem submit_empty_capture_counterexample :
    resolvedOf none listeningEmptyState = "" ∧
    listeningEmptyState.isListening = true ∧
    (handleSubmitAnswer [sampleQuestion] sampleEvalOk none
      listeningEmptyState).1.isListening = false := by
  refine ⟨by decide, rfl, by decide⟩

/-- C3 (amended): a submit whose resolved answer text is empty issues no
evaluator call and ends presenting the same question (`INTERVIEW` host
state, analysis flag clear), with no effect on session or host-visible
state other than stopping any active capture. -/
theorem submit_empty_no_call (questions : List InterviewQuestion)
    (analyzeAnswer : AnswerEval) (answerOverride : Option String)
    (s : ScreenState) (h : resolvedOf answerOverride s = "") :
    handleSubmitAnswer questions analyzeAnswer answerOverride s =
      ({ s with isListening := false, isAnalyzing := false,
                appState := AppState.INTERVIEW }, []) :=
  handleSubmitAnswer_empty questions analyzeAnswer answerOverride s h

/-- C3 witness: the amended statement at a concrete listening state. -/
theorem submit_empty_no_call_witness :
    resolvedOf none listeningEmptyState = "" ∧
    handleSubmitAnswer [sampleQuestion] sampleEvalOk none listeningEmptyState =
      ({ listeningEmptyState with isListening := false, isAnalyzing := false,
                                  appState := AppState.INTERVIEW }, []) :=
  ⟨by decide, submit_empty_no_call [sampleQuestion] sampleEvalOk none
    listeningEmptyState (by decide)⟩

/-! ### Claim C4: successful evaluator response -/

/-- C4: on a submit whose evaluator call succeeds with feedback `fb`, the
controller appends the result (current question, resolved answer, `fb`) to
both the local and the host-visible collected results, stores `fb` as the
current feedback, enters the reviewing (`FEEDBACK`) state, and — when `fb`
carries a non-empty spoken summary — starts playback of it; exactly one
evaluator call is issued, with the current question and resolved answer. -/
theorem submit_success_records (questions : List InterviewQuestion)
    (analyzeAnswer : AnswerEval) (answerOverride : Option String)
    (s : ScreenState) (q : InterviewQuestion) (fb : AnswerFeedback)
    (hne : resolvedOf answerOverride s ≠ "")
    (hq : questions[s.currentQuestionIndex]? = some q)
    (hok : analyzeAnswer q.question (resolvedOf answerOverride s) q.keywords =
      Except.ok fb) :
    (handleSubmitAnswer questions analyzeAnswer answerOverride s).2 =
      [(q.question, resolvedOf answerOverride s, q.keywords)] ∧
    (handleSubmitAnswer questions analyzeAnswer answerOverride s).1.localResults =
      s.localResults ++ [⟨q, resolvedOf answerOverride s, fb⟩] ∧
    (handleSubmitAnswer questions analyzeAnswer answerOverride s).1.hostResults =
      s.hostResults ++ [⟨q, resolvedOf answerOverride s, fb⟩] ∧
    (handleSubmitAnswer questions analyzeAnswer answerOverride s).1.feedback =
      some fb ∧
    (handleSubmitAnswer questions analyzeAnswer answerOverride s).1.appState =
      AppState.FEEDBACK ∧
    (fb.spokenFeedback ≠ "" →
      (handleSubmitAnswer questions analyzeAnswer answerOverride s).1.utterance =
        some fb.spokenFeedback ∧
      (handleSubmitAnswer questions analyzeAnswer answerOverride s).1.speechState =
        SpeechState.playing) := by
  rw [handleSubmitAnswer_ok questions analyzeAnswer answerOverride s q fb hne hq hok]
  refine ⟨rfl, rfl, rfl, rfl, rfl, ?_⟩
  intro hsf
  simp [hsf]

/-- C4 witness: a typed answer to the sample question with a succeeding
evaluator. -/
theorem submit_success_records_witness :
    resolvedOf none typedState ≠ "" ∧
    ((handleSubmitAnswer [sampleQuestion] sampleEvalOk none typedState).2 =
      [(sampleQuestion.question, resolvedOf none typedState,
        sampleQuestion.keywords)] ∧
    (handleSubmitAnswer [sampleQuestion] sampleEvalOk none typedState).1.localResults =
      typedState.localResults ++
        [⟨sampleQuestion, resolvedOf none typedState, sampleFeedback⟩] ∧
    (handleSubmitAnswer [sampleQuestion] sampleEvalOk none typedState).1.hostResults =
      typedState.hostResults ++
        [⟨sampleQuestion, resolvedOf none typedState, sampleFeedback⟩] ∧
    (handleSubmitAnswer [sampleQuestion] sampleEvalOk none typedState).1.feedback =
      some sampleFeedback ∧
    (handleSubmitAnswer [sampleQuestion] sampleEvalOk none typedState).1.appState =
      AppState.FEEDBACK ∧
    (sampleFeedback.spokenFeedback ≠ "" →
      (handleSubmitAnswer [sampleQuestion] sampleEvalOk none typedState).1.utterance =
        some sampleFeedback.spokenFeedback ∧
      (handleSubmitAnswer [sampleQuestion] sampleEvalOk none typedState).1.speechState =
        SpeechState.playing)) :=
  ⟨by decide,
   submit_success_records [sampleQuestion] sampleEvalOk none typedState
     sampleQuestion sampleFeedback (by decide) rfl rfl⟩

/-! ### Claim C5: evaluator failure -/

/-- C5 counterexample: after a failed evaluator call the typed input is
preserved, not cleared — refuting the claimed discard of captured/typed
input. -/
theorem submit_failure_preserves_input_counterexample :
    (handleSubmitAnswer [sampleQuestion] sampleEvalFail none
      failInputState).1.textAnswer = "hello world" ∧
    ("hello world" : String) ≠ "" := by
  refine ⟨by decide, by decide⟩

/-- C5 (amended): on a submit whose evaluator call fails, the controller
surfaces the user-visible error message, returns to presenting the same
question (`INTERVIEW`, same index, analysis flag clear) with the collected
results unchanged, and the captured and typed input are preserved (the
transcript buffers and typed text are not cleared); exactly one evaluator
call was issued. -/
theorem submit_failure_recovers (questions : List InterviewQuestion)
    (analyzeAnswer : AnswerEval) (answerOverride : Option String)
    (s : ScreenState) (q : InterviewQuestion) (msg : String)
    (hne : resolvedOf answerOverride s ≠ "")
    (hq : questions[s.currentQuestionIndex]? = some q)
    (herr : analyzeAnswer q.question (resolvedOf answerOverride s) q.keywords =
      Except.error msg) :
    handleSubmitAnswer questions analyzeAnswer answerOverride s =
      ({ s with isListening := false, isAnalyzing := false,
                appState := AppState.INTERVIEW,
                alerts := s.alerts ++ [analysisErrorMessage] },
       [(q.question, resolvedOf answerOverride s, q.keywords)]) :=
  handleSubmitAnswer_error questions analyzeAnswer answerOverride s q msg hne hq herr

/-- C5 witness: the amended statement at a concrete failing submit. -/
theorem submit_failure_recovers_witness :
    resolvedOf none failInputState ≠ "" ∧
    handleSubmitAnswer [sampleQuestion] sampleEvalFail none failInputState =
      ({ failInputState with isListening := false, isAnalyzing := false,
                             appState := AppState.INTERVIEW,
                             alerts := failInputState.alerts ++
                               [analysisErrorMessage] },
       [(sampleQuestion.question, resolvedOf none failInputState,
         sampleQuestion.keywords)]) :=
  ⟨by decide,
   submit_failure_recovers [sampleQuestion] sampleEvalFail none failInputState
     sampleQuestion "network error" (by decide) rfl rfl⟩

/-! ### Claim C8: frame of the successful submit transition -/

/-- C8 counterexample: a successful submit (the state does enter reviewing,
`feedback` set) leaves the finalized transcript buffer intact — the
in-progress capture text is not cleared on this transition. -/
theorem submit_success_keeps_buffers_counterexample :
    (handleSubmitAnswer [sampleQuestion] sampleEvalOk none
      capturedState).1.finalTranscript = "captured answer" ∧
    (handleSubmitAnswer [sampleQuestion] sampleEvalOk none
      capturedState).1.feedback = some sampleFeedback ∧
    ("captured answer" : String) ≠ "" := by
  refine ⟨by decide, by decide, by decide⟩

/-- C8 (amended): the frame of the submitting-to-reviewing transition: the
interim and finalized transcript buffers and the typed text are preserved
(they are cleared only on advance), the question index and the alert list
are unchanged, and the transition sets exactly the capture flag (stopped),
the analysis flag, the feedback, the result lists, the host state, and —
only when a spoken summary exists — the playback fields. -/
theorem submit_success_frame (questions : List InterviewQuestion)
    (analyzeAnswer : AnswerEval) (answerOverride : Option String)
    (s : ScreenState) (q : InterviewQuestion) (fb : AnswerFeedback)
    (hne : resolvedOf answerOverride s ≠ "")
    (hq : questions[s.currentQuestionIndex]? = some q)
    (hok : analyzeAnswer q.question (resolvedOf answerOverride s) q.keywords =
      Except.ok fb) :
    (handleSubmitAnswer questions analyzeAnswer answerOverride s).1.transcript =
      s.transcript ∧
    (handleSubmitAnswer questions analyzeAnswer answerOverride s).1.finalTranscript =
      s.finalTranscript ∧
    (handleSubmitAnswer questions analyzeAnswer answerOverride s).1.textAnswer =
      s.textAnswer ∧
    (handleSubmitAnswer questions analyzeAnswer answerOverride s).1.currentQuestionIndex =
      s.currentQuestionIndex ∧
    (handleSubmitAnswer questions analyzeAnswer answerOverride s).1.alerts =
      s.alerts ∧
    (handleSubmitAnswer questions analyzeAnswer answerOverride s).1.isListening =
      false ∧
    (handleSubmitAnswer questions analyzeAnswer answerOverride s).1.isAnalyzing =
      false ∧
    (handleSubmitAnswer questions analyzeAnswer answerOverride s).1.feedback =
      some fb ∧
    (handleSubmitAnswer questions analyzeAnswer answerOverride s).1.appState =
      AppState.FEEDBACK ∧
    (fb.spokenFeedback = "" →
      (handleSubmitAnswer questions analyzeAnswer answerOverride s).1.utterance =
        s.utterance ∧
      (handleSubmitAnswer questions analyzeAnswer answerOverride s).1.speechState =
        s.speechState) := by
  rw [handleSubmitAnswer_ok questions analyzeAnswer answerOverride s q fb hne hq hok]
  refine ⟨rfl, rfl, rfl, rfl, rfl, rfl, rfl, rfl, rfl, ?_⟩
  intro hsf
  simp [hsf]

/-- C8 witness: the frame statement at a concrete captured state. -/
theorem submit_success_frame_witness :
    resolvedOf none capturedState ≠ "" ∧
    ((handleSubmitAnswer [sampleQuestion] sampleEvalOk none capturedState).1.transcript =
      capturedState.transcript ∧
    (handleSubmitAnswer [sampleQuestion] sampleEvalOk none capturedState).1.finalTranscript =
      capturedState.finalTranscript ∧
    (handleSubmitAnswer [sampleQuestion] sampleEvalOk none capturedState).1.textAnswer =
      capturedState.textAnswer ∧
    (handleSubmitAnswer [sampleQuestion] sampleEvalOk none capturedState).1.currentQuestionIndex =
      capturedState.currentQuestionIndex ∧
    (handleSubmitAnswer [sampleQuestion] sampleEvalOk none capturedState).1.alerts =
      capturedState.alerts ∧
    (handleSubmitAnswer [sampleQuestion] sampleEvalOk none capturedState).1.isListening =
      false ∧
    (handleSubmitAnswer [sampleQuestion] sampleEvalOk none capturedState).1.isAnalyzing =
      false ∧
    (handleSubmitAnswer [sampleQuestion] sampleEvalOk none capturedState).1.feedback =
      some sampleFeedback ∧
    (handleSubmitAnswer [sampleQuestion] sampleEvalOk none capturedState).1.appState =
      AppState.FEEDBACK ∧
    (sampleFeedback.spokenFeedback = "" →
      (handleSubmitAnswer [sampleQuestion] sampleEvalOk none capturedState).1.utterance =
        capturedState.utterance ∧
      (handleSubmitAnswer [sampleQuestion] sampleEvalOk none capturedState).1.speechState =
        capturedState.speechState)) :=
  ⟨by decide,
   submit_success_frame [sampleQuestion] sampleEvalOk none capturedState
     sampleQuestion sampleFeedback (by decide) rfl rfl⟩

/-! ### Claim C9: starting capture clears the other input modes -/

/-- C9: toggling capture while it is inactive clears the previously typed
text and both the interim and finalized transcript buffers, and starts
listening — so at most one input mode holds authoritative text. -/
theorem toggle_capture_on_clears (s : ScreenState)
    (h : s.isListening = false) :
    handleToggleListening s =
      { s with transcript := "", finalTranscript := "", textAnswer := "",
               isListening := true } := by
  unfold handleToggleListening
  simp [h]

/-- C9 witness: starting capture on a concrete state with leftover typed
text and transcripts. -/
theorem toggle_capture_on_clears_witness :
    typedDraftState.isListening = false ∧
    handleToggleListening typedDraftState =
      { typedDraftState with transcript := "", finalTranscript := "",
                             textAnswer := "", isListening := true } :=
  ⟨rfl, toggle_capture_on_clears typedDraftState rfl⟩

/-! ### Frame lemmas for the event handlers -/

theorem presentQuestion_frame (questions : List InterviewQuestion)
    (s : ScreenState) :
    (presentQuestion questions s).currentQuestionIndex = s.currentQuestionIndex ∧
    (presentQuestion questions s).feedback = s.feedback ∧
    (presentQuestion questions s).localResults = s.localResults ∧
    (presentQuestion questions s).hostResults = s.hostResults ∧
    (presentQuestion questions s).appState = s.appState := by
  unfold presentQuestion speak
  cases h : questions[s.currentQuestionIndex]? with
  | none => exact ⟨rfl, rfl, rfl, rfl, rfl⟩
  | some q =>
      cases hf : s.feedback with
      | none => simp [h, hf]
      | some fb => simp [h, hf]

theorem handleToggleListening_frame (s : ScreenState) :
    (handleToggleListening s).currentQuestionIndex = s.currentQuestionIndex ∧
    (handleToggleListening s).feedback = s.feedback ∧
    (handleToggleListening s).localResults = s.localResults ∧
    (handleToggleListening s).hostResults = s.hostResults ∧
    (handleToggleListening s).appState = s.appState := by
  unfold handleToggleListening
  split <;> exact ⟨rfl, rfl, rfl, rfl, rfl⟩

theorem handleTypeAnswer_frame (text : String) (s : ScreenState) :
    (handleTypeAnswer text s).currentQuestionIndex = s.currentQuestionIndex ∧
    (handleTypeAnswer text s).feedback = s.feedback ∧
    (handleTypeAnswer text s).localResults = s.localResults ∧
    (handleTypeAnswer text s).hostResults = s.hostResults ∧
    (handleTypeAnswer text s).appState = s.appState := by
  unfold handleTypeAnswer
  dsimp only
  split <;> exact ⟨rfl, rfl, rfl, rfl, rfl⟩

theorem handleRecognitionResult_frame (final interim : String)
    (s : ScreenState) :
    (handleRecognitionResult final interim s).currentQuestionIndex =
      s.currentQuestionIndex ∧
    (handleRecognitionResult final interim s).feedback = s.feedback ∧
    (handleRecognitionResult final interim s).localResults = s.localResults ∧
    (handleRecognitionResult final interim s).hostResults = s.hostResults ∧
    (handleRecognitionResult final interim s).appState = s.appState := by
  unfold handleRecognitionResult
  dsimp only
  split <;> exact ⟨rfl, rfl, rfl, rfl, rfl⟩

theorem handleToggleSpokenFeedback_frame (s : ScreenState) :
    (handleToggleSpokenFeedback s).currentQuestionIndex =
      s.currentQuestionIndex ∧
    (handleToggleSpokenFeedback s).feedback = s.feedback ∧
    (handleToggleSpokenFeedback s).localResults = s.localResults ∧
    (handleToggleSpokenFeedback s).hostResults = s.hostResults ∧
    (handleToggleSpokenFeedback s).appState = s.appState := by
  unfold handleToggleSpokenFeedback speak
  split
  · exact ⟨rfl, rfl, rfl, rfl, rfl⟩
  · exact ⟨rfl, rfl, rfl, rfl, rfl⟩
  · split
    · split <;> exact ⟨rfl, rfl, rfl, rfl, rfl⟩
    · exact ⟨rfl, rfl, rfl, rfl, rfl⟩

/-- The flattened form of `handleNextQuestion`. -/
theorem handleNextQuestion_eq (questions : List InterviewQuestion)
    (s : ScreenState) :
    handleNextQuestion questions s =
      if s.currentQuestionIndex < questions.length - 1 then
        { s with utterance := none, speechState := SpeechState.idle,
                 feedback := none, transcript := "", finalTranscript := "",
                 textAnswer := "",
                 currentQuestionIndex := s.currentQuestionIndex + 1,
                 appState := AppState.INTERVIEW }
      else
        { s with utterance := none, speechState := SpeechState.idle,
                 feedback := none, transcript := "", finalTranscript := "",
                 textAnswer := "", appState := AppState.COMPLETE } := by
  unfold handleNextQuestion
  dsimp only

/-! ### Results never shrink -/

theorem handleSubmitAnswer_results_mono (questions : List InterviewQuestion)
    (analyzeAnswer : AnswerEval) (answerOverride : Option String)
    (s : ScreenState) :
    s.localResults.length ≤
      (handleSubmitAnswer questions analyzeAnswer answerOverride s).1.localResults.length := by
  by_cases hres : resolvedOf answerOverride s = ""
  · rw [handleSubmitAnswer_empty questions analyzeAnswer answerOverride s hres]
  · cases hq : questions[s.currentQuestionIndex]? with
    | none =>
        rw [handleSubmitAnswer_outOfRange questions analyzeAnswer answerOverride s
          hres hq]
    | some q =>
        cases hcall : analyzeAnswer q.question (resolvedOf answerOverride s)
            q.keywords with
        | ok fb =>
            rw [handleSubmitAnswer_ok questions analyzeAnswer answerOverride s q fb
              hres hq hcall]
            simp
        | error msg =>
            rw [handleSubmitAnswer_error questions analyzeAnswer answerOverride s q
              msg hres hq hcall]

theorem dispatch_results_mono (questions : List InterviewQuestion) (e : Event)
    (s : ScreenState) :
    s.localResults.length ≤ ((dispatch questions e s).1).localResults.length := by
  unfold dispatch
  split
  · cases e with
    | submit analyzeAnswer =>
        dsimp only
        split
        · exact handleSubmitAnswer_results_mono questions analyzeAnswer none s
        · exact Nat.le_refl _
    | nextQuestion =>
        dsimp only
        split
        · rw [handleNextQuestion_eq]
          split
          · split
            · exact Nat.le_refl _
            · rw [(presentQuestion_frame questions _).2.2.1]
          · split
            · exact Nat.le_refl _
            · rw [(presentQuestion_frame questions _).2.2.1]
        · exact Nat.le_refl _
    | toggleListening =>
        dsimp only
        split
        · rw [(handleToggleListening_frame s).2.2.1]
        · exact Nat.le_refl _
    | typeAnswer text =>
        dsimp only
        split
        · rw [(handleTypeAnswer_frame text s).2.2.1]
        · exact Nat.le_refl _
    | recognitionResult final interim =>
        dsimp only
        rw [(handleRecognitionResult_frame final interim s).2.2.1]
    | recognitionEnd => exact Nat.le_refl _
    | togglePlayback =>
        dsimp only
        split
        · rw [(handleToggleSpokenFeedback_frame s).2.2.1]
        · exact Nat.le_refl _
  · exact Nat.le_refl _

/-! ### The reachable-state invariant -/

/-- Invariant of every reachable session state: the local results count the
completed turns (`currentIndex` plus one exactly while a turn is pending
review or the session is complete), the host-visible results coincide with
the local ones, and the index stays within range whenever questions exist. -/
theorem reachable_invariant (questions : List InterviewQuestion)
    (s : ScreenState) (hs : Reachable questions s) :
    (s.localResults.length = s.currentQuestionIndex +
      (if s.feedback.isSome ∨ s.appState = AppState.COMPLETE then 1 else 0)) ∧
    s.hostResults = s.localResults ∧
    (questions = [] ∨ s.currentQuestionIndex < questions.length) := by
  induction hs with
  | init =>
      obtain ⟨h1, h2, h3, h4, h5⟩ := presentQuestion_frame questions freshState
      refine ⟨?_, ?_, ?_⟩
      · show (initState questions).localResults.length = _
        unfold initState
        rw [h1, h2, h3, h5]
        simp [freshState]
      · show (initState questions).hostResults = (initState questions).localResults
        unfold initState
        rw [h3, h4]
        rfl
      · cases questions with
        | nil => exact Or.inl rfl
        | cons a t =>
            refine Or.inr ?_
            show (initState (a :: t)).currentQuestionIndex < (a :: t).length
            unfold initState
            rw [h1]
            simp [freshState]
  | step e hr ih =>
      rename_i s
      obtain ⟨ihLen, ihHost, ihIdx⟩ := ih
      unfold dispatch
      split
      case isFalse => exact ⟨ihLen, ihHost, ihIdx⟩
      case isTrue hact =>
        have hncomp : s.appState ≠ AppState.COMPLETE := by
          rcases hact.1 with h | h | h <;> simp [h]
        cases e with
        | submit analyzeAnswer =>
            dsimp only
            split
            case isFalse => exact ⟨ihLen, ihHost, ihIdx⟩
            case isTrue hguard =>
              obtain ⟨hA, hFb, hTr⟩ := hguard
              simp only [hFb, Option.isSome_none, Bool.false_eq_true, false_or,
                hncomp, if_false, Nat.add_zero] at ihLen
              by_cases hres : resolvedOf none s = ""
              · rw [handleSubmitAnswer_empty questions analyzeAnswer none s hres]
                refine ⟨?_, ihHost, ihIdx⟩
                simp [hFb, ihLen]
              · have hlt : s.currentQuestionIndex < questions.length := hact.2
                have hq : questions[s.currentQuestionIndex]? =
                    some (questions.get ⟨s.currentQuestionIndex, hlt⟩) := by
                  rw [List.getElem?_eq_getElem hlt, List.get_eq_getElem]
                cases hcall : analyzeAnswer
                    (questions.get ⟨s.currentQuestionIndex, hlt⟩).question
                    (resolvedOf none s)
                    (questions.get ⟨s.currentQuestionIndex, hlt⟩).keywords with
                | ok fb =>
                    rw [handleSubmitAnswer_ok questions analyzeAnswer none s _ fb
                      hres hq hcall]
                    refine ⟨?_, ?_, ihIdx⟩
                    · simp [ihLen]
                    · show s.hostResults ++ _ = s.localResults ++ _
                      rw [ihHost]
                | error msg =>
                    rw [handleSubmitAnswer_error questions analyzeAnswer none s _
                      msg hres hq hcall]
                    refine ⟨?_, ihHost, ihIdx⟩
                    simp [hFb, ihLen]
        | nextQuestion =>
            dsimp only
            split
            case isFalse => exact ⟨ihLen, ihHost, ihIdx⟩
            case isTrue hguard =>
              have hSome : s.feedback.isSome = true := by
                cases hFb : s.feedback with
                | none => exact absurd hFb hguard.2
                | some fb => rfl
              simp only [hSome, true_or, if_true] at ihLen
              rw [handleNextQuestion_eq]
              by_cases hc : s.currentQuestionIndex < questions.length - 1
              · rw [if_pos hc]
                simp only [reduceCtorEq, reduceIte]
                obtain ⟨p1, p2, p3, p4, p5⟩ := presentQuestion_frame questions
                  { s with utterance := none, speechState := SpeechState.idle,
                           feedback := none, transcript := "",
                           finalTranscript := "", textAnswer := "",
                           currentQuestionIndex := s.currentQuestionIndex + 1,
                           appState := AppState.INTERVIEW }
                refine ⟨?_, ?_, ?_⟩
                · show (presentQuestion questions _).localResults.length = _
                  rw [p1, p2, p3, p5]
                  simp [ihLen]
                · show (presentQuestion questions _).hostResults =
                    (presentQuestion questions _).localResults
                  rw [p3, p4]
                  exact ihHost
                · refine Or.inr ?_
                  show (presentQuestion questions _).currentQuestionIndex <
                    questions.length
                  rw [p1]
                  show s.currentQuestionIndex + 1 < questions.length
                  omega
              · rw [if_neg hc]
                simp only [reduceCtorEq, reduceIte]
                refine ⟨?_, ihHost, ihIdx⟩
                simp [ihLen]
        | toggleListening =>
            dsimp only
            split
            case isFalse => exact ⟨ihLen, ihHost, ihIdx⟩
            case isTrue hguard =>
              obtain ⟨f1, f2, f3, f4, f5⟩ := handleToggleListening_frame s
              refine ⟨?_, ?_, ?_⟩
              · show (handleToggleListening s).localResults.length = _
                rw [f1, f2, f3, f5]
                exact ihLen
              · show (handleToggleListening s).hostResults =
                  (handleToggleListening s).localResults
                rw [f3, f4]
                exact ihHost
              · cases ihIdx with
                | inl h => exact Or.inl h
                | inr h => exact Or.inr (by rw [f1]; exact h)
        | typeAnswer text =>
            dsimp only
            split
            case isFalse => exact ⟨ihLen, ihHost, ihIdx⟩
            case isTrue hguard =>
              obtain ⟨f1, f2, f3, f4, f5⟩ := handleTypeAnswer_frame text s
              refine ⟨?_, ?_, ?_⟩
              · show (handleTypeAnswer text s).localResults.length = _
                rw [f1, f2, f3, f5]
                exact ihLen
              · show (handleTypeAnswer text s).hostResults =
                  (handleTypeAnswer text s).localResults
                rw [f3, f4]
                exact ihHost
              · cases ihIdx with
                | inl h => exact Or.inl h
                | inr h => exact Or.inr (by rw [f1]; exact h)
        | recognitionResult final interim =>
            dsimp only
            obtain ⟨f1, f2, f3, f4, f5⟩ := handleRecognitionResult_frame final
              interim s
            refine ⟨?_, ?_, ?_⟩
            · show (handleRecognitionResult final interim s).localResults.length = _
              rw [f1, f2, f3, f5]
              exact ihLen
            · show (handleRecognitionResult final interim s).hostResults =
                (handleRecognitionResult final interim s).localResults
              rw [f3, f4]
              exact ihHost
            · cases ihIdx with
              | inl h => exact Or.inl h
              | inr h => exact Or.inr (by rw [f1]; exact h)
        | recognitionEnd => exact ⟨ihLen, ihHost, ihIdx⟩
        | togglePlayback =>
            dsimp only
            split
            case isFalse => exact ⟨ihLen, ihHost, ihIdx⟩
            case isTrue hguard =>
              obtain ⟨f1, f2, f3, f4, f5⟩ := handleToggleSpokenFeedback_frame s
              refine ⟨?_, ?_, ?_⟩
              · show (handleToggleSpokenFeedback s).localResults.length = _
                rw [f1, f2, f3, f5]
                exact ihLen
              · show (handleToggleSpokenFeedback s).hostResults =
                  (handleToggleSpokenFeedback s).localResults
                rw [f3, f4]
                exact ihHost
              · cases ihIdx with
                | inl h => exact Or.inl h
                | inr h => exact Or.inr (by rw [f1]; exact h)

/-! ### Claims C6 and C7: advance and collected-results invariants -/

/-- A two-question list for exercising the advance step. -/
def sampleQuestions : List InterviewQuestion :=
  [sampleQuestion, sampleQuestion]

/-- The reachable state after typing `"hello"` and submitting it
successfully against the single sample question. -/
def submittedOnceState : ScreenState :=
  (dispatch [sampleQuestion] (Event.submit sampleEvalOk)
    ((dispatch [sampleQuestion] (Event.typeAnswer "hello")
      (initState [sampleQuestion])).1)).1

/-- The reachable state after advancing out of review past the single
question. -/
def completedState : ScreenState :=
  (dispatch [sampleQuestion] Event.nextQuestion submittedOnceState).1

/-- C6 counterexample: advancing out of reviewing on the last (only)
question reaches the completed session state without incrementing
`currentIndex`: the session is over while `currentIndex = 0` differs from
`len(questions) = 1` — refuting both "increments currentIndex" and "over
exactly when currentIndex equals len(questions)". -/
theorem advance_last_counterexample :
    Reachable [sampleQuestion] completedState ∧
    completedState.appState = AppState.COMPLETE ∧
    completedState.currentQuestionIndex = 0 ∧
    ([sampleQuestion] : List InterviewQuestion).length = 1 := by
  refine ⟨Reachable.step Event.nextQuestion
    (Reachable.step (Event.submit sampleEvalOk)
      (Reachable.step (Event.typeAnswer "hello") Reachable.init)),
    by decide, by decide, rfl⟩

/-- C6 (amended): in every reachable state the current index is a valid
index into the questions (when any exist) — including the completed state;
advancing cancels any active playback, resets the playback status, clears
the current feedback, both transcript buffers and the typed text; when
further questions remain it increments the index and re-enters the
interview state, and otherwise it enters the complete state with the index
unchanged at the last question (so completion is signalled by the state,
not by `currentIndex = len(questions)`). -/
theorem advance_reviewing_amended (questions : List InterviewQuestion)
    (s : ScreenState) (hs : Reachable questions s) (hq : questions ≠ []) :
    s.currentQuestionIndex < questions.length ∧
    (handleNextQuestion questions s).utterance = none ∧
    (handleNextQuestion questions s).speechState = SpeechState.idle ∧
    (handleNextQuestion questions s).feedback = none ∧
    (handleNextQuestion questions s).transcript = "" ∧
    (handleNextQuestion questions s).finalTranscript = "" ∧
    (handleNextQuestion questions s).textAnswer = "" ∧
    (s.currentQuestionIndex + 1 < questions.length →
      (handleNextQuestion questions s).currentQuestionIndex =
        s.currentQuestionIndex + 1 ∧
      (handleNextQuestion questions s).appState = AppState.INTERVIEW) ∧
    (s.currentQuestionIndex + 1 = questions.length →
      (handleNextQuestion questions s).currentQuestionIndex =
        s.currentQuestionIndex ∧
      (handleNextQuestion questions s).appState = AppState.COMPLETE) := by
  have hb := (reachable_invariant questions s hs).2.2
  have hlt : s.currentQuestionIndex < questions.length := by
    cases hb with
    | inl h => exact absurd h hq
    | inr h => exact h
  rw [handleNextQuestion_eq]
  by_cases hc : s.currentQuestionIndex < questions.length - 1
  · rw [if_pos hc]
    exact ⟨hlt, rfl, rfl, rfl, rfl, rfl, rfl, fun _ => ⟨rfl, rfl⟩,
      fun h2 => absurd h2 (by omega)⟩
  · rw [if_neg hc]
    exact ⟨hlt, rfl, rfl, rfl, rfl, rfl, rfl, fun h2 => absurd h2 (by omega),
      fun _ => ⟨rfl, rfl⟩⟩

/-- C6 witness: the amended statement at the freshly mounted two-question
session. -/
theorem advance_reviewing_amended_witness :
    (initState sampleQuestions).currentQuestionIndex <
      sampleQuestions.length ∧
    (handleNextQuestion sampleQuestions (initState sampleQuestions)).utterance =
      none ∧
    (handleNextQuestion sampleQuestions (initState sampleQuestions)).speechState =
      SpeechState.idle ∧
    (handleNextQuestion sampleQuestions (initState sampleQuestions)).feedback =
      none ∧
    (handleNextQuestion sampleQuestions (initState sampleQuestions)).transcript =
      "" ∧
    (handleNextQuestion sampleQuestions (initState sampleQuestions)).finalTranscript =
      "" ∧
    (handleNextQuestion sampleQuestions (initState sampleQuestions)).textAnswer =
      "" ∧
    ((initState sampleQuestions).currentQuestionIndex + 1 <
        sampleQuestions.length →
      (handleNextQuestion sampleQuestions (initState sampleQuestions)).currentQuestionIndex =
        (initState sampleQuestions).currentQuestionIndex + 1 ∧
      (handleNextQuestion sampleQuestions (initState sampleQuestions)).appState =
        AppState.INTERVIEW) ∧
    ((initState sampleQuestions).currentQuestionIndex + 1 =
        sampleQuestions.length →
      (handleNextQuestion sampleQuestions (initState sampleQuestions)).currentQuestionIndex =
        (initState sampleQuestions).currentQuestionIndex ∧
      (handleNextQuestion sampleQuestions (initState sampleQuestions)).appState =
        AppState.COMPLETE) :=
  advance_reviewing_amended sampleQuestions (initState sampleQuestions)
    Reachable.init (by decide)

/-- C7 counterexample: a reachable state — one successful submit, before
advancing — whose collected results (local and host-visible) are strictly
longer than `currentIndex`: length 1 versus index 0, refuting "never
exceeds currentIndex". -/
theorem results_exceed_index_counterexample :
    Reachable [sampleQuestion] submittedOnceState ∧
    submittedOnceState.currentQuestionIndex <
      submittedOnceState.localResults.length ∧
    submittedOnceState.currentQuestionIndex <
      submittedOnceState.hostResults.length := by
  refine ⟨Reachable.step (Event.submit sampleEvalOk)
    (Reachable.step (Event.typeAnswer "hello") Reachable.init),
    by decide, by decide⟩

/-- C7 (amended): in every reachable session state the collected results
(host-visible and local coincide) have length `currentIndex` while no turn
is pending review and the session is not complete, and `currentIndex + 1`
while a turn is pending review or the session is complete; and the length
never shrinks under any event. -/
theorem results_length_reachable (questions : List InterviewQuestion)
    (s : ScreenState) (hs : Reachable questions s) :
    (s.localResults.length = s.currentQuestionIndex +
      (if s.feedback.isSome ∨ s.appState = AppState.COMPLETE then 1 else 0)) ∧
    s.hostResults = s.localResults ∧
    ∀ e : Event, s.localResults.length ≤
      ((dispatch questions e s).1).localResults.length := by
  obtain ⟨h1, h2, -⟩ := reachable_invariant questions s hs
  exact ⟨h1, h2, fun e => dispatch_results_mono questions e s⟩

/-- C7 witness: the amended statement at the freshly mounted session. -/
theorem results_length_reachable_witness :
    ((initState [sampleQuestion]).localResults.length =
      (initState [sampleQuestion]).currentQuestionIndex +
        (if (initState [sampleQuestion]).feedback.isSome ∨
            (initState [sampleQuestion]).appState = AppState.COMPLETE
         then 1 else 0)) ∧
    (initState [sampleQuestion]).hostResults =
      (initState [sampleQuestion]).localResults ∧
    ∀ e : Event, (initState [sampleQuestion]).localResults.length ≤
      ((dispatch [sampleQuestion] e (initState [sampleQuestion])).1).localResults.length :=
  results_length_reachable [sampleQuestion] (initState [sampleQuestion])
    Reachable.init

/-! ### Claim C10: device-unavailability reporting -/

/-- The dependency values of the recognition effect (part_000 lines
225-260): its dependency list is `[finalTranscript, handleSubmitAnswer]`,
and `handleSubmitAnswer` is a `useCallback` whose identity changes with
`isListening`, `finalTranscript`, `transcript`, `textAnswer` or the current
question (its remaining dependencies are referentially stable). -/
def unavailabilityEffectDeps (s : ScreenState) :
    String × Bool × String × String × Nat :=
  (s.finalTranscript, s.isListening, s.transcript, s.textAnswer,
   s.currentQuestionIndex)

/-- Alert firings of the device-unavailability branch (lines 226-229) after
the mount, when `recognition` is `null`: the effect body re-runs after every
event that changes its dependency values, and each run hits the `alert`
since the device is missing.  With the device missing no capture events
occur and typing still works, so text events drive the re-runs. -/
def unavailableAlertsFrom (questions : List InterviewQuestion)
    (s : ScreenState) : List Event → Nat
  | [] => 0
  | e :: rest =>
      let s1 := (dispatch questions e s).1
      (if unavailabilityEffectDeps s1 ≠ unavailabilityEffectDeps s then 1
       else 0) + unavailableAlertsFrom questions s1 rest

/-- Total device-unavailability alerts over a run when `recognition` is
`null`: one at mount (the effect's first run) plus one per dependency
change. -/
def unavailableAlertCount (questions : List InterviewQuestion)
    (events : List Event) : Nat :=
  1 + unavailableAlertsFrom questions (initState questions) events

/-- C10: with the capture device unavailable, the unavailability is not
reported exactly once.  After the mount-time report, typing a single
character changes the effect's dependencies (the submit handler's identity
depends on the typed text), the effect re-runs, and the alert fires again —
two reports in total — while text-only input keeps working. -/
theorem unavailable_alert_not_once :
    unavailableAlertCount [sampleQuestion] [Event.typeAnswer "a"] = 2 ∧
    (dispatch [sampleQuestion] (Event.typeAnswer "a")
      (initState [sampleQuestion])).1.textAnswer = "a" := by
  refine ⟨by decide, by decide⟩

end MockAI
